import Mathlib

/-
Shallow embedding of dingo/gw/inference/data_preparation.py.

Python floats are modelled as real numbers (ℝ) where real arithmetic matters
(strain/PSD arrays, angles), and as rationals (ℚ) where values are only carried
around, compared, or used as cache keys (settings fields, GPS times in the
loader), so that the cache logic stays executable.  Python dicts with a fixed
schema become structures; dicts iterated over (detector → array) become
association lists.  Exceptions become Except.  External collaborators (gwpy /
pycbc strain processing, the download client, astropy sidereal time) are
abstracted as function parameters; repository code that is not under src/
(dingo.gw.domains.FrequencyDomain.update_data, dingo.core.utils.
load_data_from_file, dingo.core.dataset.DingoDataset) is modelled from the
spec, as marked on each definition.
-/

set_option autoImplicit false

namespace DingoPrep

/-- Window settings dict `model_metadata["train_settings"]["data"]["window"]`:
carries at least the segment duration `T` and the sample rate `f_s`
(plus a window type and roll-off which the code passes through verbatim). -/
structure WindowSettings where
  wtype : String
  T : ℚ
  f_s : ℚ
  roll_off : ℚ
  deriving DecidableEq

/-- The `domain` sub-dict of `model_metadata["dataset_settings"]`, with its
`"type"` field (a string naming the domain kind). -/
structure DomainMeta where
  dtype : String
  deriving DecidableEq

/-- The `dataset_settings` section of the model metadata. -/
structure DatasetSettings where
  domain : DomainMeta
  deriving DecidableEq

/-- The `data` sub-dict of `model_metadata["train_settings"]` (the
training-data section): window configuration and detector list. -/
structure DataSettings where
  window : WindowSettings
  detectors : List String
  deriving DecidableEq

/-- The `train_settings` section of the model metadata. -/
structure TrainSettings where
  data : DataSettings
  deriving DecidableEq

/-- Model metadata: the nested configuration read by
`parse_settings_for_raw_data`. -/
structure ModelMetadata where
  dataset_settings : DatasetSettings
  train_settings : TrainSettings
  deriving DecidableEq

/-- The flat settings dict built by `parse_settings_for_raw_data`
(lines 62-69 of data_preparation.py). -/
structure Settings where
  window : WindowSettings
  detectors : List String
  time_segment : ℚ
  time_psd : ℚ
  time_buffer : ℚ
  f_s : ℚ
  deriving DecidableEq

/-- Raw event data: the two named sections `strain` and `psd`, each a mapping
detector name → array.  The element type is a parameter so that the loader
claims can be exercised on executable (ℚ-valued) data while the converter
works over ℝ. -/
structure RawData (α : Type) where
  strain : List (String × List α)
  psd : List (String × List α)
  deriving DecidableEq

/-- Modelled from the spec: the cached dataset behind `load_data_from_file` /
`DingoDataset` (dingo.core, not under src/) is "an append-only keyed store,
where each key is an event identifier and the value is its raw event data plus
a settings snapshot". -/
abbrev EventDataset (α : Type) : Type := List (String × RawData α × Settings)

/-- Modelled from the spec: `dingo.core.utils.load_data_from_file` is not under
src/.  Per the spec it performs "a keyed lookup using the event identifier as
key, validating the stored settings are compatible with the requested
settings"; compatibility is modelled as equality of the settings snapshot.
Returns the first stored payload whose key and settings both match, else
`none` (a miss is not an error). -/
def load_data_from_file {α : Type} (event_dataset : EventDataset α)
    (event : String) (settings : Settings) : Option (RawData α) :=
  match event_dataset with
  | [] => none
  | e :: rest =>
    if e.1 = event ∧ e.2.2 = settings then some e.2.1
    else load_data_from_file rest event settings

/-- Result of `load_raw_data`: the returned data, the cache as left behind by
the call (`none` when no cache handle was supplied), and whether a live
download was performed. -/
structure LoadResult (α : Type) where
  data : RawData α
  event_dataset : Option (EventDataset α)
  downloaded : Bool
  deriving DecidableEq

/-- `load_raw_data` (lines 12-54).  The download collaborator
(`download_raw_data`, a separate module) is a parameter.  The event key is
`str(time_event)`, modelled as `toString`.  On a cache hit the cached payload
is returned unchanged; on a miss the data is downloaded and, when a cache
handle was supplied, appended to the cache together with the settings snapshot
(`DingoDataset(...).to_file(event_dataset, mode="a")`, modelled from the spec
as an append to the keyed store). -/
def load_raw_data {α : Type} (download : ℚ → Settings → RawData α)
    (time_event : ℚ) (settings : Settings)
    (event_dataset : Option (EventDataset α)) : LoadResult α :=
  let event := toString time_event
  match event_dataset with
  | some cache =>
    match load_data_from_file cache event settings with
    | some data => ⟨data, some cache, false⟩
    | none =>
      let data := download time_event settings
      ⟨data, some (cache ++ [(event, data, settings)]), true⟩
  | none => ⟨download time_event settings, none, true⟩

/-- `parse_settings_for_raw_data` (lines 57-73): dispatch on the declared
domain type; only "FrequencyDomain" is supported, anything else raises
`NotImplementedError(f"Unknown domain type {domain_type}")`. -/
def parse_settings_for_raw_data (model_metadata : ModelMetadata)
    (time_psd time_buffer : ℚ) : Except String Settings :=
  let domain_type := model_metadata.dataset_settings.domain.dtype
  if domain_type = "FrequencyDomain" then
    let data_settings := model_metadata.train_settings.data
    Except.ok
      { window := data_settings.window
        detectors := data_settings.detectors
        time_segment := data_settings.window.T
        time_psd := time_psd
        time_buffer := time_buffer
        f_s := data_settings.window.f_s }
  else Except.error ("Unknown domain type " ++ domain_type)

/-- The runtime class of a Python object: its exact class name plus the names
of its proper ancestor classes.  `type(x) == C` is exact-name equality;
`isinstance(x, C)` also accepts the ancestors. -/
structure PyType where
  name : String
  bases : List String
  deriving DecidableEq

/-- Python `isinstance(domain, FrequencyDomain)`: true when the exact class is
`FrequencyDomain` or `FrequencyDomain` is among its ancestors. -/
def isinstanceFrequencyDomain (t : PyType) : Bool :=
  t.name = "FrequencyDomain" || t.bases.contains "FrequencyDomain"

/-- The truncation data of a `FrequencyDomain` object: the domain's declared
frequency range as array-bin indices `n_min ≤ n ≤ n_max`. -/
structure FrequencyDomain where
  n_min : Nat
  n_max : Nat
  deriving DecidableEq

/-- Modelled from the spec: `dingo.gw.domains.FrequencyDomain.update_data` is
not under src/.  Per the spec it reformats an array "into the domain object's
native layout" (truncating frequency bins to the domain's declared range) and,
when a floor is configured, applies "a floor clamp (values below a configured
minimum are replaced by that minimum)". -/
noncomputable def FrequencyDomain.update_data (d : FrequencyDomain) (data : List ℝ)
    (low_value : Option ℝ) : List ℝ :=
  let truncated := (data.drop d.n_min).take (d.n_max + 1 - d.n_min)
  match low_value with
  | none => truncated
  | some lo => truncated.map fun x => if x < lo then lo else x

/-- A domain object as seen by `data_to_domain`: its runtime class together
with the frequency-domain truncation data (meaningful only when the class is
`FrequencyDomain`). -/
structure Domain where
  pytype : PyType
  fdata : FrequencyDomain
  deriving DecidableEq

/-- An actual instance of the `FrequencyDomain` class (exact runtime type
`FrequencyDomain`). -/
def mkFrequencyDomain (fd : FrequencyDomain) : Domain :=
  { pytype := { name := "FrequencyDomain", bases := ["Domain"] }, fdata := fd }

/-- The output of `data_to_domain`: `waveform` and `asds`, each mapping
detector name → array.  The complex frequency-domain strain arrays are
modelled as opaque real sequences, since no claim inspects their values. -/
structure DomainData where
  waveform : List (String × List ℝ)
  asds : List (String × List ℝ)

/-- `data_to_domain` (lines 76-115).  The strain processing chain
(`TimeSeries(event_strain, dt=1/f_s).to_pycbc() * window).to_frequencyseries()
.cyclic_time_shift(time_buffer)` together with `get_window(kwargs["window"])`)
is delegated to external libraries (gwpy / pycbc) and is abstracted as the
parameter `strain_to_frequency`, applied to the window spec from `kwargs`, the
sample rate `f_s` and `time_buffer` from the settings, and the strain.
Dispatch is on exact type equality `type(domain) == FrequencyDomain`; any
other runtime class raises `NotImplementedError`.  On the frequency-domain
path each strain is processed and passed through `domain.update_data`, and
each PSD is mapped to `psd ** 0.5` and passed through `domain.update_data`
with `low_value=1.0`. -/
noncomputable def data_to_domain
    (strain_to_frequency : WindowSettings → ℚ → ℚ → List ℝ → List ℝ)
    (raw_data : RawData ℝ) (settings_raw_data : Settings) (domain : Domain)
    (kwargs_window : WindowSettings) : Except String DomainData :=
  if domain.pytype.name = "FrequencyDomain" then
    Except.ok
      { waveform := raw_data.strain.map fun p =>
          (p.1, domain.fdata.update_data
            (strain_to_frequency kwargs_window settings_raw_data.f_s
              settings_raw_data.time_buffer p.2) none)
        asds := raw_data.psd.map fun p =>
          (p.1, domain.fdata.update_data (p.2.map Real.sqrt) (some 1)) }
  else Except.error ("Unknown domain type " ++ domain.pytype.name)

/-- Python float modulo on reals: `a % b = a - b * floor(a / b)`. -/
noncomputable def pymod (a b : ℝ) : ℝ := a - b * (Int.floor (a / b) : ℝ)

/-- The default reference GPS time of `get_corrected_sky_position`. -/
noncomputable def t_ref_default : ℝ := 1126259462.391

/-- `get_corrected_sky_position` (lines 140-169).  The apparent Greenwich
sidereal time in radians at a GPS time
(`Time(t, format='gps', scale='utc').sidereal_time('apparent', 'greenwich')`)
is computed by astropy, an external collaborator, and is abstracted as the
parameter `sidereal_time`. -/
noncomputable def get_corrected_sky_position (sidereal_time : ℝ → ℝ)
    (ra t_event t_ref : ℝ) : ℝ :=
  let longitude_event := sidereal_time t_event
  let longitude_reference := sidereal_time t_ref
  let delta_longitude := longitude_event - longitude_reference
  let ra_correction := delta_longitude
  pymod (ra + ra_correction) (2 * Real.pi)

/- Concrete inputs used by the witnesses. -/

/-- A concrete window spec. -/
def window0 : WindowSettings :=
  { wtype := "tukey", T := 4, f_s := 4096, roll_off := 2/5 }

/-- A concrete settings structure. -/
def s0 : Settings :=
  { window := window0, detectors := ["H1", "L1"], time_segment := 4
    time_psd := 1024, time_buffer := 2, f_s := 4096 }

/-- Concrete ℚ-valued raw event data. -/
def rd0 : RawData ℚ :=
  { strain := [("H1", [1, 2]), ("L1", [3])], psd := [("H1", [4]), ("L1", [9])] }

/-- A concrete cache holding `rd0` under the key of event time 5 with
settings snapshot `s0`. -/
def cache0 : EventDataset ℚ := [(toString (5 : ℚ), rd0, s0)]

/-- A concrete download collaborator. -/
def download0 : ℚ → Settings → RawData ℚ := fun _ _ => rd0

/-- Concrete metadata declaring an unsupported domain kind. -/
def mmTD : ModelMetadata :=
  { dataset_settings := { domain := { dtype := "TimeDomain" } }
    train_settings := { data := { window := window0, detectors := ["H1", "L1"] } } }

/-- Concrete metadata declaring the frequency-domain kind. -/
def mmFD : ModelMetadata :=
  { dataset_settings := { domain := { dtype := "FrequencyDomain" } }
    train_settings := { data := { window := window0, detectors := ["H1", "L1"] } } }

/-- A concrete strain-processing collaborator. -/
noncomputable def stf0 : WindowSettings → ℚ → ℚ → List ℝ → List ℝ :=
  fun _ _ _ s => s

/-- Concrete ℝ-valued raw event data. -/
noncomputable def rawR0 : RawData ℝ :=
  { strain := [("H1", [1, 2])], psd := [("H1", [4])] }

/-- Concrete frequency-domain truncation data. -/
def fd0 : FrequencyDomain := { n_min := 0, n_max := 3 }

/-- A concrete domain object of an unsupported runtime class. -/
def dTD : Domain :=
  { pytype := { name := "TimeDomain", bases := ["Domain"] }, fdata := fd0 }

/-- A concrete domain object whose runtime class is a strict subclass of
`FrequencyDomain`. -/
def dUFD : Domain :=
  { pytype := { name := "UniformFrequencyDomain"
                bases := ["FrequencyDomain", "Domain"] }
    fdata := fd0 }

/- Helper lemmas. -/

/-- Appending a fresh entry to a cache that missed makes the lookup hit on
exactly that entry. -/
theorem load_data_from_file_append {α : Type} (c : EventDataset α)
    (event : String) (s : Settings) (d : RawData α)
    (h : load_data_from_file c event s = none) :
    load_data_from_file (c ++ [(event, d, s)]) event s = some d := by
  induction c with
  | nil => simp [load_data_from_file]
  | cons e rest ih =>
    rw [List.cons_append]
    simp only [load_data_from_file] at h ⊢
    by_cases hc : e.1 = event ∧ e.2.2 = s
    · rw [if_pos hc] at h
      exact absurd h (by simp)
    · rw [if_neg hc] at h ⊢
      exact ih h

/-- The `asds` section produced by `data_to_domain` on an actual
`FrequencyDomain` instance: square root of each PSD, passed through
`update_data` with the constant floor `1.0`. -/
theorem data_to_domain_asds
    (stf : WindowSettings → ℚ → ℚ → List ℝ → List ℝ) (raw : RawData ℝ)
    (s : Settings) (fd : FrequencyDomain) (kw : WindowSettings) :
    (data_to_domain stf raw s (mkFrequencyDomain fd) kw).map DomainData.asds
      = Except.ok (raw.psd.map fun p =>
          (p.1, fd.update_data (p.2.map Real.sqrt) (some 1))) := by
  simp [data_to_domain, mkFrequencyDomain, Except.map]

/-- Each entry of `update_data` with a floor is a clamped entry of the input
array: the value at an in-range input index, replaced by the floor when it
lies below it. -/
theorem update_data_low_get (fd : FrequencyDomain) (xs : List ℝ) (lo : ℝ)
    (i : Fin (fd.update_data xs (some lo)).length) :
    ∃ j : Fin xs.length,
      (fd.update_data xs (some lo)).get i
        = if xs.get j < lo then lo else xs.get j := by
  obtain ⟨i, hi⟩ := i
  have hlen : (fd.update_data xs (some lo)).length
      = min (fd.n_max + 1 - fd.n_min) (xs.length - fd.n_min) := by
    simp [FrequencyDomain.update_data]
  have hi' : i < min (fd.n_max + 1 - fd.n_min) (xs.length - fd.n_min) :=
    hlen ▸ hi
  have hi2 : i < xs.length - fd.n_min := lt_of_lt_of_le hi' (min_le_right _ _)
  have hub : fd.n_min + i < xs.length := by omega
  refine ⟨⟨fd.n_min + i, hub⟩, ?_⟩
  simp [FrequencyDomain.update_data, List.get_eq_getElem]

/-- Python float modulo with a positive modulus lands in `[0, b)`. -/
theorem pymod_nonneg_lt (a b : ℝ) (hb : 0 < b) :
    0 ≤ pymod a b ∧ pymod a b < b := by
  have hbne : b ≠ 0 := ne_of_gt hb
  have hba : b * (a / b) = a := by field_simp
  have hrw : pymod a b = b * Int.fract (a / b) := by
    unfold pymod Int.fract
    rw [mul_sub, hba]
  constructor
  · rw [hrw]
    exact mul_nonneg hb.le (Int.fract_nonneg _)
  · rw [hrw]
    calc b * Int.fract (a / b) < b * 1 :=
          mul_lt_mul_of_pos_left (Int.fract_lt_one _) hb
      _ = b := mul_one b

/- Claim theorems. -/

/-- C6: if a cache handle is supplied and the keyed lookup (with settings
validation) returns stored data, `load_raw_data` returns that cached payload,
performs no download, and leaves the cache unchanged (no cache write). -/
theorem load_raw_data_cache_hit (α : Type) (download : ℚ → Settings → RawData α)
    (time_event : ℚ) (settings : Settings) (cache : EventDataset α)
    (d : RawData α)
    (h : load_data_from_file cache (toString time_event) settings = some d) :
    load_raw_data download time_event settings (some cache)
      = ⟨d, some cache, false⟩ := by
  simp [load_raw_data, h]

/-- Witness for C6 at a concrete cache hit. -/
theorem load_raw_data_cache_hit_witness :
    load_data_from_file cache0 (toString (5 : ℚ)) s0 = some rd0 ∧
    load_raw_data download0 5 s0 (some cache0) = ⟨rd0, some cache0, false⟩ := by
  have h : load_data_from_file cache0 (toString (5 : ℚ)) s0 = some rd0 := by
    simp [load_data_from_file, cache0]
  exact ⟨h, load_raw_data_cache_hit ℚ download0 5 s0 cache0 rd0 h⟩

/-- C7: calling the loader twice with the same event identifier, settings and
cache handle (the second call receiving the cache left behind by the first)
returns the same payload both times and triggers at most one download in
total; the second call never downloads. -/
theorem load_raw_data_idempotent (α : Type)
    (download : ℚ → Settings → RawData α) (time_event : ℚ)
    (settings : Settings) (cache : EventDataset α) :
    (load_raw_data download time_event settings
        (load_raw_data download time_event settings (some cache)).event_dataset).data
      = (load_raw_data download time_event settings (some cache)).data
    ∧ (load_raw_data download time_event settings (some cache)).downloaded.toNat
      + (load_raw_data download time_event settings
          (load_raw_data download time_event settings
            (some cache)).event_dataset).downloaded.toNat ≤ 1 := by
  cases h : load_data_from_file cache (toString time_event) settings with
  | some d => simp [load_raw_data, h]
  | none =>
    have h2 := load_data_from_file_append cache (toString time_event) settings
      (download time_event settings) h
    simp [load_raw_data, h, h2]

/-- C8: for metadata declaring the frequency-domain kind, the settings parser
returns the flat settings structure with window, detectors and sample rate
taken verbatim from the training-data section and the time segment length
equal to the window's duration parameter `T`. -/
theorem parse_settings_frequency_domain (mm : ModelMetadata)
    (time_psd time_buffer : ℚ)
    (h : mm.dataset_settings.domain.dtype = "FrequencyDomain") :
    parse_settings_for_raw_data mm time_psd time_buffer = Except.ok
      { window := mm.train_settings.data.window
        detectors := mm.train_settings.data.detectors
        time_segment := mm.train_settings.data.window.T
        time_psd := time_psd
        time_buffer := time_buffer
        f_s := mm.train_settings.data.window.f_s } := by
  simp [parse_settings_for_raw_data, h]

/-- Witness for C8 at concrete frequency-domain metadata. -/
theorem parse_settings_frequency_domain_witness :
    parse_settings_for_raw_data mmFD 1024 2 = Except.ok
      { window := window0, detectors := ["H1", "L1"], time_segment := 4
        time_psd := 1024, time_buffer := 2, f_s := 4096 } := by
  simpa [mmFD, window0] using parse_settings_frequency_domain mmFD 1024 2 rfl

/-- C5: for any input whose domain kind is not the frequency-domain kind, both
the settings parser and the domain converter return the "not implemented"
error naming the offending domain kind, and nothing else (no partial
output). -/
theorem unsupported_domain_kind_error :
    (∀ (mm : ModelMetadata) (time_psd time_buffer : ℚ),
        mm.dataset_settings.domain.dtype ≠ "FrequencyDomain" →
        parse_settings_for_raw_data mm time_psd time_buffer
          = Except.error
              ("Unknown domain type " ++ mm.dataset_settings.domain.dtype))
    ∧ (∀ (stf : WindowSettings → ℚ → ℚ → List ℝ → List ℝ) (raw : RawData ℝ)
        (s : Settings) (d : Domain) (kw : WindowSettings),
        d.pytype.name ≠ "FrequencyDomain" →
        data_to_domain stf raw s d kw
          = Except.error ("Unknown domain type " ++ d.pytype.name)) := by
  constructor
  · intro mm tp tb h
    simp [parse_settings_for_raw_data, h]
  · intro stf raw s d kw h
    simp [data_to_domain, h]

/-- Witness for C5 at a concrete unsupported domain kind. -/
theorem unsupported_domain_kind_error_witness :
    parse_settings_for_raw_data mmTD 1024 2
      = Except.error ("Unknown domain type " ++ "TimeDomain")
    ∧ data_to_domain stf0 rawR0 s0 dTD window0
      = Except.error ("Unknown domain type " ++ "TimeDomain") := by
  constructor
  · exact unsupported_domain_kind_error.1 mmTD 1024 2 (by simp [mmTD])
  · exact unsupported_domain_kind_error.2 stf0 rawR0 s0 dTD window0
      (by simp [dTD])

/-- C9 (implicit): the converter dispatches on exact type equality, so a
domain object whose runtime class is a strict subclass of `FrequencyDomain`
(an `isinstance` check would accept it) still gets the "not implemented"
failure instead of the frequency-domain conversion. -/
theorem data_to_domain_subclass_error
    (stf : WindowSettings → ℚ → ℚ → List ℝ → List ℝ) (raw : RawData ℝ)
    (s : Settings) (d : Domain) (kw : WindowSettings)
    (_hsub : isinstanceFrequencyDomain d.pytype = true)
    (hne : d.pytype.name ≠ "FrequencyDomain") :
    data_to_domain stf raw s d kw
      = Except.error ("Unknown domain type " ++ d.pytype.name) := by
  simp [data_to_domain, hne]

/-- Witness for C9 at a concrete strict subclass of `FrequencyDomain`. -/
theorem data_to_domain_subclass_error_witness :
    isinstanceFrequencyDomain dUFD.pytype = true ∧
    data_to_domain stf0 rawR0 s0 dUFD window0
      = Except.error ("Unknown domain type " ++ "UniformFrequencyDomain") := by
  refine ⟨by decide, ?_⟩
  exact data_to_domain_subclass_error stf0 rawR0 s0 dUFD window0 (by decide)
    (by simp [dUFD])

/-- C10 (implicit): the ASD floor passed to the domain object's `update_data`
is the fixed constant `1.0`; the `asds` output is determined by the raw PSDs
and the domain alone, independently of the settings structure and the kwargs
window. -/
theorem asds_floor_is_constant_one
    (stf : WindowSettings → ℚ → ℚ → List ℝ → List ℝ) (raw : RawData ℝ)
    (s : Settings) (fd : FrequencyDomain) (kw : WindowSettings) :
    (data_to_domain stf raw s (mkFrequencyDomain fd) kw).map DomainData.asds
      = Except.ok (raw.psd.map fun p =>
          (p.1, fd.update_data (p.2.map Real.sqrt) (some 1))) :=
  data_to_domain_asds stf raw s fd kw

/-- C1: on a frequency-domain conversion every output ASD entry is the square
root of a PSD entry, floor-clamped: whenever the square root lies below the
configured minimum the output entry equals exactly that minimum, and
otherwise it equals the square root itself. -/
theorem asd_sqrt_floor_clamp
    (stf : WindowSettings → ℚ → ℚ → List ℝ → List ℝ) (raw : RawData ℝ)
    (s : Settings) (fd : FrequencyDomain) (kw : WindowSettings) :
    (data_to_domain stf raw s (mkFrequencyDomain fd) kw).map DomainData.asds
      = Except.ok (raw.psd.map fun p =>
          (p.1, fd.update_data (p.2.map Real.sqrt) (some 1)))
    ∧ ∀ (psd : List ℝ) (lo : ℝ)
        (i : Fin (fd.update_data (psd.map Real.sqrt) (some lo)).length),
        ∃ j : Fin psd.length,
          (fd.update_data (psd.map Real.sqrt) (some lo)).get i
            = if Real.sqrt (psd.get j) < lo then lo
              else Real.sqrt (psd.get j) := by
  refine ⟨data_to_domain_asds stf raw s fd kw, ?_⟩
  intro psd lo i
  obtain ⟨j, hj⟩ := update_data_low_get fd (psd.map Real.sqrt) lo i
  refine ⟨⟨j.1, by simpa using j.2⟩, ?_⟩
  rw [hj]
  simp [List.get_eq_getElem]

/-- C2: the corrected sky position is the input right ascension plus the
sidereal-time difference between event and reference times, reduced by the
Python float modulo `2π`. -/
theorem sky_position_formula (st : ℝ → ℝ) (ra t_event t_ref : ℝ) :
    get_corrected_sky_position st ra t_event t_ref
      = pymod (ra + (st t_event - st t_ref)) (2 * Real.pi) := rfl

/-- C3: the corrected sky position always lies in the half-open interval
`[0, 2π)`. -/
theorem sky_position_in_range (st : ℝ → ℝ) (ra t_event t_ref : ℝ) :
    0 ≤ get_corrected_sky_position st ra t_event t_ref ∧
      get_corrected_sky_position st ra t_event t_ref < 2 * Real.pi :=
  pymod_nonneg_lt (ra + (st t_event - st t_ref)) (2 * Real.pi) Real.two_pi_pos

/-- C4: with the event time equal to the reference time the sidereal
correction vanishes and the corrected sky position is `ra mod 2π`. -/
theorem sky_position_same_time (st : ℝ → ℝ) (ra t : ℝ) :
    get_corrected_sky_position st ra t t = pymod ra (2 * Real.pi) := by
  show pymod (ra + (st t - st t)) (2 * Real.pi) = pymod ra (2 * Real.pi)
  rw [sub_self, add_zero]

end DingoPrep
